import Mathlib

/-!
Shallow embedding of the MySQL connection pool
(`CommonConnectionPool.cpp`): configuration loading, the pool state
(idle queue + live-connection counter + configuration fields), the
producer task body, the consumer (`getConnection`) wait loop, the
shared_ptr custom deleter (release), and the scanner (reaper) task
body.  Each mutex-protected critical section of the C++ code becomes
one atomic transition of a step relation on `PoolState`.
-/

namespace ConnPool

/-- A `Connection` object as the pool sees it.  The `Connection`
class itself is not part of the sources; per the spec it tracks its
own idle-start timestamp and whether `connect` succeeded.
`idleSince` is the absolute time (ms) recorded by
`refreshAliveTime`; `connected` is the result of `connect`. -/
structure Conn where
  idleSince : Nat
  connected : Bool
deriving DecidableEq, Repr

/-- Modelled from the spec: `refreshIdleTimestamp()` of the absent
`Connection` class records the current clock as the idle-start
timestamp (`p->refreshAliveTime()` in the pool sources). -/
def refreshAliveTime (c : Conn) (now : Nat) : Conn :=
  { c with idleSince := now }

/-- Modelled from the spec: `idleDurationMs()` of the absent
`Connection` class returns the elapsed milliseconds since the
idle-start timestamp (`p->getAliveeTime()` in the pool sources). -/
def getAliveTime (c : Conn) (now : Nat) : Nat :=
  now - c.idleSince

/-- `new Connection()` followed by `connect(...)` (result `ok`) and
`refreshAliveTime()` at time `now`, as the constructor and the
producer task both do. -/
def newConn (ok : Bool) (now : Nat) : Conn :=
  { idleSince := now, connected := ok }

/-- The member state of class `ConnectionPool`: the configuration
fields loaded from `mysql.ini`, the idle-connection queue
(`_connectionQue`, front at the head of the list) and the
live-connection counter (`_connectionCnt`). -/
structure PoolState where
  ip : List Char
  port : Int
  username : List Char
  password : List Char
  dbname : List Char
  initSize : Int
  maxSize : Int
  maxIdleTime : Int
  connectionTimeout : Int
  queue : List Conn
  connectionCnt : Int
deriving DecidableEq, Repr

/-! ### Configuration loading (`ConnectionPool::loadConfigFile`) -/

/-- Index of the first occurrence of `t` in `s`, or `none`
(C++ `string::npos`). -/
def findChar : List Char → Char → Option Nat
  | [], _ => none
  | c :: cs, t => if c = t then some 0 else (findChar cs t).map (· + 1)

/-- `str.find(t, start)` of C++ `std::string`: index (counted from
the start of the whole string) of the first occurrence of `t` at
position `start` or later. -/
def strFind (s : List Char) (t : Char) (start : Nat) : Option Nat :=
  (findChar (s.drop start) t).map (· + start)

/-- `str.substr(pos, len)` of C++ `std::string`. -/
def substr (s : List Char) (pos len : Nat) : List Char :=
  (s.drop pos).take len

/-- C `atoi` on the digit run: accumulate decimal digits, stop at
the first non-digit. -/
def atoiDigits : List Char → Nat → Nat
  | [], acc => acc
  | c :: cs, acc =>
    if '0' ≤ c ∧ c ≤ '9' then atoiDigits cs (acc * 10 + (c.toNat - '0'.toNat))
    else acc

/-- C `atoi`: skip leading whitespace, optional sign, then the
longest run of decimal digits (0 if there is none). -/
def atoi (s : List Char) : Int :=
  match s.dropWhile (fun c => c.isWhitespace) with
  | '-' :: cs => -(atoiDigits cs 0 : Int)
  | '+' :: cs => (atoiDigits cs 0 : Int)
  | cs => (atoiDigits cs 0 : Int)

/-- One iteration of the `loadConfigFile` read loop, split into the
pure parsing part: find the first `'='` (skip the line when there is
none), find the `'\n'` from there, and cut the line into
`key = substr(0, idx)` and
`value = substr(idx + 1, endidx - idx - 1)`.  When the line has no
terminating `'\n'`, `find` yields `npos`, which the `int endidx`
and the unsigned `substr` count turn into "the rest of the line". -/
def parseLine (line : List Char) : Option (List Char × List Char) :=
  match strFind line '=' 0 with
  | none => none
  | some idx =>
    match strFind line '\n' idx with
    | some endidx => some (substr line 0 idx, substr line (idx + 1) (endidx - idx - 1))
    | none => some (substr line 0 idx, line.drop (idx + 1))

/-- The key dispatch of `loadConfigFile`: store `value` into the
configuration field named by `key` (numeric fields through `atoi`);
unrecognized keys store nothing. -/
def applyKV (s : PoolState) (key value : List Char) : PoolState :=
  if key = ("ip".toList) then { s with ip := value }
  else if key = ("port".toList) then { s with port := atoi value }
  else if key = ("username".toList) then { s with username := value }
  else if key = ("password".toList) then { s with password := value }
  else if key = ("dbname".toList) then { s with dbname := value }
  else if key = ("initSize".toList) then { s with initSize := atoi value }
  else if key = ("maxSize".toList) then { s with maxSize := atoi value }
  else if key = ("maxIdleTime".toList) then { s with maxIdleTime := atoi value }
  else if key = ("connectionTimeOut".toList) then { s with connectionTimeout := atoi value }
  else s

/-- One full iteration of the `loadConfigFile` loop on one line. -/
def applyConfigLine (s : PoolState) (line : List Char) : PoolState :=
  match parseLine line with
  | none => s
  | some (key, value) => applyKV s key value

/-- The `while (!feof(pf))` loop over the lines of the file. -/
def loadConfigLines (s : PoolState) : List (List Char) → PoolState
  | [] => s
  | l :: ls => loadConfigLines (applyConfigLine s l) ls

/-- `ConnectionPool::loadConfigFile`: `none` models `fopen`
failing (`mysql.ini` absent), in which case the function logs and
returns `false` without touching any field; otherwise every line is
processed and the function returns `true`. -/
def loadConfigFile (s : PoolState) : Option (List (List Char)) → PoolState × Bool
  | none => (s, false)
  | some ls => (loadConfigLines s ls, true)

/-! ### The producer task (`ConnectionPool::produceConnectionTask`) -/

/-- One iteration of the producer loop, executed under `_queueMutex`.
When the queue is non-empty the producer waits on `cv` (no state
change, no production, nothing signalled yet).  When the queue is
empty: if `_connectionCnt < _maxSize`, a new connection is built
(`new` / `connect` with result `ok` / `refreshAliveTime` at `now`),
pushed, and the counter incremented — note the source never checks
the result of `connect`; in either case `cv.notify_all()` runs.
Returns the new state and whether `notify_all` was called. -/
def produceStep (s : PoolState) (ok : Bool) (now : Nat) : PoolState × Bool :=
  match s.queue with
  | _ :: _ => (s, false)
  | [] =>
    if s.connectionCnt < s.maxSize then
      ({ s with queue := s.queue ++ [newConn ok now],
                 connectionCnt := s.connectionCnt + 1 }, true)
    else (s, true)

/-! ### The consumer (`ConnectionPool::getConnection`) -/

/-- The outcome of one `cv.wait_for(lock, _connectionTimeout)` in
`getConnection`: either the wait timed out or it was notified, and
in both cases the lock is re-acquired with `q` the queue content at
that moment (other threads ran during the wait). -/
inductive WaitRes where
  | timeout (q : List Conn)
  | woken (q : List Conn)
deriving DecidableEq, Repr

/-- What `getConnection` hands back: `got c n` is the success path
(the `shared_ptr` wraps connection `c`, the front of the queue is
popped and `n` records that `cv.notify_all()` ran); `nullHandle` is
`return nullptr` after the logged timeout message; `blocked` means
the call is still inside the wait loop (the trace of wait outcomes
is exhausted while the queue is empty). -/
inductive AcquireOutcome where
  | blocked
  | nullHandle
  | got (c : Conn) (notified : Bool)
deriving DecidableEq, Repr

/-- The `getConnection` body as a function of the queue it sees and
the trace of wait outcomes: `while (empty) { if (wait_for timed out)
{ if (empty) return nullptr; } }`, then wrap the front in a
`shared_ptr`, pop, `notify_all`, return.  The second component is
the queue at the moment the call returns (or gives up the trace). -/
def getConnection : List Conn → List WaitRes → AcquireOutcome × List Conn
  | c :: rest, _ => (.got c true, rest)
  | [], [] => (.blocked, [])
  | [], WaitRes.timeout q :: ws =>
    if q = [] then (.nullHandle, q) else getConnection q ws
  | [], WaitRes.woken q :: ws => getConnection q ws

/-- `getConnection` on the whole pool state: only `_connectionQue`
is read and written; every other member is untouched. -/
def getConnectionS (s : PoolState) (ws : List WaitRes) : AcquireOutcome × PoolState :=
  let r := getConnection s.queue ws
  (r.1, { s with queue := r.2 })

/-- The `shared_ptr` custom deleter (release): under `_queueMutex`,
`pcon->refreshAliveTime()` then `_connectionQue.push(pcon)`.  The
Boolean records whether any `cv` signalling happened in the deleter
(the source contains no `notify` call there). -/
def releaseConn (s : PoolState) (c : Conn) (now : Nat) : PoolState × Bool :=
  ({ s with queue := s.queue ++ [refreshAliveTime c now] }, false)

/-! ### The scanner task (`ConnectionPool::scannerConnectionTask`) -/

/-- The eviction loop of one scanner cycle, under `_queueMutex`:
`while (_connectionCnt > _initSize)` take `front()`, and if its
alive time reaches `_maxIdleTime * 1000` ms pop it, decrement the
counter and `delete` it, else break.  `front()` on an empty queue
is undefined behaviour in C++, rendered as `none`. -/
def scanLoop (initSize maxIdleTime : Int) (now : Nat) :
    List Conn → Int → Option (List Conn × Int)
  | q, cnt =>
    if initSize < cnt then
      match q with
      | [] => none
      | p :: rest =>
        if (getAliveTime p now : Int) ≥ maxIdleTime * 1000 then
          scanLoop initSize maxIdleTime now rest (cnt - 1)
        else some (p :: rest, cnt)
    else some (q, cnt)

/-- One scanner cycle (after the `sleep_for(_maxIdleTime)`) on the
whole pool state. -/
def scannerCycle (s : PoolState) (now : Nat) : Option PoolState :=
  (scanLoop s.initSize s.maxIdleTime now s.queue s.connectionCnt).map
    fun r => { s with queue := r.1, connectionCnt := r.2 }

/-! ### Construction (`ConnectionPool::ConnectionPool`) -/

/-- The warm-up loop of the constructor:
`for (int i = 0; i < _initSize; ++i)` build a connection (`connect`
assumed to succeed during warm-up), push it and increment the
counter. -/
def warmup (now : Nat) : Nat → PoolState → PoolState
  | 0, s => s
  | n + 1, s =>
    warmup now n { s with queue := s.queue ++ [newConn true now],
                          connectionCnt := s.connectionCnt + 1 }

/-- The constructor body: load the configuration; on failure return
at once (no connections built, producer and scanner threads not
started); on success run the warm-up loop and start both threads.
The Boolean records whether the pool initialized (threads started). -/
def constructPool (s : PoolState) (file : Option (List (List Char))) (now : Nat) :
    PoolState × Bool :=
  let r := loadConfigFile s file
  if r.2 then (warmup now r.1.initSize.toNat r.1, true)
  else (r.1, false)

/-- Modelled from the spec: the member defaults of class
`ConnectionPool` (its header is not among the sources).  A freshly
constructed object before `loadConfigFile` runs: empty strings and
zero numbers, empty queue, zero counter. -/
def defaultPool : PoolState :=
  { ip := [], port := 0, username := [], password := [], dbname := []
    initSize := 0, maxSize := 0, maxIdleTime := 0, connectionTimeout := 0
    queue := [], connectionCnt := 0 }

/-! ### Interleaving -/

/-- One atomic transition of the pool: each constructor of `Step` is
one `_queueMutex`-protected critical section of the sources — a
producer iteration, the consumer popping the front (the mutation
part of a successful `getConnection`), a release through the custom
deleter, or one scanner cycle (only when its `front()` never hits an
empty queue, i.e. no undefined behaviour). -/
inductive Step : PoolState → PoolState → Prop
  | produce (s : PoolState) (ok : Bool) (now : Nat) :
      Step s (produceStep s ok now).1
  | consume (s : PoolState) (c : Conn) (rest : List Conn) :
      s.queue = c :: rest → Step s { s with queue := rest }
  | release (s : PoolState) (c : Conn) (now : Nat) :
      Step s (releaseConn s c now).1
  | scan (s s' : PoolState) (now : Nat) :
      scannerCycle s now = some s' → Step s s'

/-- States reachable from `s0` by any interleaving of the atomic
transitions. -/
inductive Reachable (s0 : PoolState) : PoolState → Prop
  | refl : Reachable s0 s0
  | tail {s s' : PoolState} : Reachable s0 s → Step s s' → Reachable s0 s'

/-- The projection of a `PoolState` onto the nine configuration
fields, used to state frame conditions. -/
def configOf (s : PoolState) :
    List Char × Int × List Char × List Char × List Char × Int × Int × Int × Int :=
  (s.ip, s.port, s.username, s.password, s.dbname,
   s.initSize, s.maxSize, s.maxIdleTime, s.connectionTimeout)

/-- A small concrete configuration (floor 2, ceiling 3) for
exercising the bounded-size invariant. -/
def poolA : PoolState := { defaultPool with initSize := 2, maxSize := 3 }

/-! ### Helper lemmas on the string searching of `loadConfigFile` -/

theorem findChar_eq_none {s : List Char} {t : Char} (h : t ∉ s) :
    findChar s t = none := by
  induction s with
  | nil => rfl
  | cons c cs ih =>
    simp only [List.mem_cons, not_or] at h
    simp [findChar, Ne.symm h.1, ih h.2]

theorem findChar_append_of_not_mem {a : List Char} (b : List Char) {t : Char}
    (h : t ∉ a) : findChar (a ++ b) t = (findChar b t).map (· + a.length) := by
  induction a with
  | nil =>
    rw [List.nil_append]
    cases findChar b t <;> rfl
  | cons c cs ih =>
    have h1 : ¬ c = t := fun hh => h (by simp [hh])
    have h2 : t ∉ cs := fun hh => h (List.mem_cons_of_mem _ hh)
    rw [List.cons_append, findChar, if_neg h1, ih h2]
    cases findChar b t with
    | none => rfl
    | some x => simp; omega

theorem strFind_zero (s : List Char) (t : Char) : strFind s t 0 = findChar s t := by
  simp only [strFind, List.drop_zero]
  cases findChar s t <;> simp

/-- On a line of the shape `key = value \n` (first `'='` after `key`,
no `'\n'` inside `value`), `parseLine` cuts out exactly `key` and
`value`. -/
theorem parseLine_eq {k v : List Char} (hk : '=' ∉ k) (hv : '\n' ∉ v) :
    parseLine (k ++ '=' :: (v ++ ['\n'])) = some (k, v) := by
  have h1 : strFind (k ++ '=' :: (v ++ ['\n'])) '=' 0 = some k.length := by
    rw [strFind_zero, findChar_append_of_not_mem _ hk]
    simp [findChar]
  have hdrop : (k ++ '=' :: (v ++ ['\n'])).drop k.length = '=' :: (v ++ ['\n']) := by
    rw [List.drop_left]
  have h2 : strFind (k ++ '=' :: (v ++ ['\n'])) '\n' k.length
      = some (k.length + v.length + 1) := by
    simp only [strFind, hdrop, findChar, show ('=' : Char) ≠ '\n' by decide, if_false]
    rw [findChar_append_of_not_mem _ hv]
    simp [findChar]
    omega
  have hkey : substr (k ++ '=' :: (v ++ ['\n'])) 0 k.length = k := by
    simp only [substr, List.drop_zero, List.take_left]
  have hval : substr (k ++ '=' :: (v ++ ['\n'])) (k.length + 1)
      (k.length + v.length + 1 - k.length - 1) = v := by
    have : k ++ '=' :: (v ++ ['\n']) = (k ++ ['=']) ++ (v ++ ['\n']) := by simp
    rw [substr, this]
    have hlen : (k ++ ['=']).length = k.length + 1 := by simp
    rw [List.drop_left' hlen]
    have : k.length + v.length + 1 - k.length - 1 = v.length := by omega
    rw [this, List.take_left]
  simp only [parseLine, h1, h2, hkey, hval]

/-! ### Helper lemmas on the consumer wait loop -/

/-- Whenever `getConnection` returns the null handle, the queue it
returns with is empty (the inner emptiness re-check guards the
`return nullptr`). -/
theorem getConnection_null_empty :
    ∀ (ws : List WaitRes) (q : List Conn),
      (getConnection q ws).1 = AcquireOutcome.nullHandle →
      (getConnection q ws).2 = [] := by
  intro ws
  induction ws with
  | nil =>
    intro q h
    cases q with
    | nil => simp [getConnection] at h
    | cons c rest => simp [getConnection] at h
  | cons w ws ih =>
    intro q h
    cases q with
    | cons c rest => simp [getConnection] at h
    | nil =>
      cases w with
      | timeout q' =>
        by_cases hq : q' = []
        · simp [getConnection, hq]
        · simp only [getConnection, if_neg hq] at h ⊢
          exact ih q' h
      | woken q' =>
        simp only [getConnection] at h ⊢
        exact ih q' h

/-! ### Helper lemmas on the scanner loop -/

/-- When one scanner cycle terminates without hitting `front()` on
an empty queue, the counter never goes up, and never drops below
`initSize` when it started at or above it. -/
theorem scanLoop_some_bounds (i m : Int) (now : Nat) :
    ∀ (q : List Conn) (cnt : Int) (r : List Conn × Int),
      scanLoop i m now q cnt = some r → r.2 ≤ cnt ∧ (i ≤ cnt → i ≤ r.2) := by
  intro q
  induction q with
  | nil =>
    intro cnt r h
    simp only [scanLoop] at h
    by_cases hc : i < cnt
    · rw [if_pos hc] at h
      exact absurd h (by simp)
    · rw [if_neg hc] at h
      injection h with h'
      subst h'
      exact ⟨le_refl _, fun hi => hi⟩
  | cons p rest ih =>
    intro cnt r h
    simp only [scanLoop] at h
    by_cases hc : i < cnt
    · rw [if_pos hc] at h
      by_cases hs : (getAliveTime p now : Int) ≥ m * 1000
      · rw [if_pos hs] at h
        obtain ⟨h1, h2⟩ := ih (cnt - 1) r h
        exact ⟨by omega, fun hi => le_trans (le_refl i) (h2 (by omega))⟩
      · rw [if_neg hs] at h
        injection h with h'
        subst h'
        exact ⟨le_refl _, fun hi => hi⟩
    · rw [if_neg hc] at h
      injection h with h'
      subst h'
      exact ⟨le_refl _, fun hi => hi⟩

/-! ### Helper lemmas on the warm-up loop -/

theorem warmup_queue (now : Nat) :
    ∀ (n : Nat) (s : PoolState),
      (warmup now n s).queue = s.queue ++ List.replicate n (newConn true now) := by
  intro n
  induction n with
  | zero => intro s; simp [warmup]
  | succ n ih =>
    intro s
    rw [warmup, ih]
    simp [List.replicate_succ]

theorem warmup_cnt (now : Nat) :
    ∀ (n : Nat) (s : PoolState),
      (warmup now n s).connectionCnt = s.connectionCnt + n := by
  intro n
  induction n with
  | zero => intro s; simp [warmup]
  | succ n ih =>
    intro s
    rw [warmup, ih]
    push_cast
    omega

theorem warmup_initSize (now : Nat) :
    ∀ (n : Nat) (s : PoolState), (warmup now n s).initSize = s.initSize := by
  intro n
  induction n with
  | zero => intro s; rfl
  | succ n ih => intro s; rw [warmup, ih]

theorem warmup_maxSize (now : Nat) :
    ∀ (n : Nat) (s : PoolState), (warmup now n s).maxSize = s.maxSize := by
  intro n
  induction n with
  | zero => intro s; rfl
  | succ n ih => intro s; rw [warmup, ih]

/-! ### The step relation keeps the counter within bounds -/

/-- Every atomic transition preserves
`initSize ≤ connectionCnt ≤ maxSize` (the bounds live in the state
and no transition rewrites them). -/
theorem step_bounds {s s' : PoolState} (hst : Step s s')
    (h : s.initSize ≤ s.connectionCnt ∧ s.connectionCnt ≤ s.maxSize) :
    s'.initSize ≤ s'.connectionCnt ∧ s'.connectionCnt ≤ s'.maxSize := by
  cases hst with
  | produce ok now =>
    unfold produceStep
    cases hq : s.queue with
    | cons c rest => exact h
    | nil =>
      dsimp only
      by_cases hcm : s.connectionCnt < s.maxSize
      · rw [if_pos hcm]
        dsimp only
        constructor
        · exact le_trans h.1 (by omega)
        · omega
      · rw [if_neg hcm]
        exact h
  | consume c rest hq => exact h
  | release c now => exact h
  | scan s' now hsc =>
    unfold scannerCycle at hsc
    cases hr : scanLoop s.initSize s.maxIdleTime now s.queue s.connectionCnt with
    | none => rw [hr] at hsc; simp at hsc
    | some r =>
      rw [hr] at hsc
      simp only [Option.map_some'] at hsc
      injection hsc with hs'
      subst hs'
      obtain ⟨h1, h2⟩ := scanLoop_some_bounds s.initSize s.maxIdleTime now
        s.queue s.connectionCnt r hr
      exact ⟨h2 h.1, le_trans h1 h.2⟩

/-! ## The claims -/

/-- C2, counterexample: with the queue empty and the timed wait
expiring while it stays empty, `getConnection` returns the null
`shared_ptr` (`return nullptr`, line 145) — not a distinguished
typed failure value, contradicting "never returns a null or invalid
handle". -/
theorem acquire_timeout_null_cex :
    getConnection [] [WaitRes.timeout []] = (AcquireOutcome.nullHandle, []) := rfl

/-- C2, amended: when the timed wait in `getConnection` expires and
the queue is still empty, the call reports failure by logging a
message and returning a null `shared_ptr` (`nullptr`); the caller
receives no typed error value and must test the handle for null. -/
theorem acquire_timeout_returns_null (ws : List WaitRes) :
    getConnection [] (WaitRes.timeout [] :: ws) = (AcquireOutcome.nullHandle, []) := rfl

/-- C3, counterexample: the custom deleter of the `shared_ptr`
handed out by `getConnection` contains no `cv.notify` call, so a
release signals no waiter: at a concrete release, the
"signalled waiters" component is `false`, contradicting "signals
any waiters ... that the queue is non-empty". -/
theorem release_signals_cex :
    (releaseConn defaultPool (newConn true 0) 7).2 = false := rfl

/-- C3, amended: every release through the custom deleter refreshes
the connection's idle-start timestamp and appends it to the tail of
the idle queue, but it signals nobody: no waiter (neither a caller
blocked in `getConnection` nor the producer) is notified by a
release; blocked callers can only observe the returned connection
when their own timed wait expires or another notification wakes
them. -/
theorem release_refreshes_and_appends (s : PoolState) (c : Conn) (now : Nat) :
    (releaseConn s c now).1.queue = s.queue ++ [refreshAliveTime c now] ∧
    (releaseConn s c now).1.queue.length = s.queue.length + 1 ∧
    (releaseConn s c now).1.queue.getLast? = some (refreshAliveTime c now) ∧
    (refreshAliveTime c now).idleSince = now ∧
    (releaseConn s c now).2 = false := by
  refine ⟨rfl, by simp [releaseConn], by simp [releaseConn], rfl, rfl⟩

/-- C4: the producer never checks the result of `connect`.  At a
concrete wakeup with the queue empty, `_connectionCnt = 1 <
_maxSize = 4` and `connect` failing, the producer still enqueues
the broken record (`connected := false`) and still increments the
counter — the failed attempt is not a no-op on the pool state. -/
theorem produce_ignores_connect_failure :
    produceStep { defaultPool with maxSize := 4, connectionCnt := 1 } false 3 =
      ({ defaultPool with
          maxSize := 4
          connectionCnt := 2
          queue := [{ idleSince := 3, connected := false }] }, true) := by decide

/-- C6: first, if the timed wait returns timeout but the queue has
become non-empty (a release raced with the expiry), `getConnection`
does not report failure: it takes the front connection, pops it and
notifies; second, whenever `getConnection` does conclude
timeout-failure (the null handle), the queue at that moment is
empty — failure is never concluded while the idle queue is
non-empty. -/
theorem acquire_rechecks_queue :
    (∀ (c : Conn) (rest : List Conn) (ws : List WaitRes),
        getConnection [] (WaitRes.timeout (c :: rest) :: ws)
          = (AcquireOutcome.got c true, rest)) ∧
    (∀ (q : List Conn) (ws : List WaitRes),
        (getConnection q ws).1 = AcquireOutcome.nullHandle →
        (getConnection q ws).2 = []) :=
  ⟨fun c rest ws => by simp [getConnection],
   fun q ws => getConnection_null_empty ws q⟩

/-- C6, witness: a timeout that races with a release of connection
`⟨5, true⟩` yields that connection, and the concrete failing call
fails with an empty queue. -/
theorem acquire_rechecks_queue_witness :
    getConnection [] [WaitRes.timeout [newConn true 5]]
      = (AcquireOutcome.got (newConn true 5) true, []) ∧
    (getConnection [] [WaitRes.timeout []]).2 = [] :=
  ⟨acquire_rechecks_queue.1 (newConn true 5) [] [],
   acquire_rechecks_queue.2 [] [WaitRes.timeout []] (by decide)⟩

/-- C8, counterexample: with `mysql.ini` absent the constructor does
return early (`constructPool` yields `false`: threads never start),
but a subsequent `getConnection` does not fail fast: before any
wait outcome arrives, the call is still blocked inside the wait
loop on the (empty) queue, running with the default-initialized
timeout — contradicting "all subsequent operations fail fast". -/
theorem config_missing_not_failfast_cex :
    (constructPool defaultPool none 0).2 = false ∧
    (getConnectionS (constructPool defaultPool none 0).1 []).1
      = AcquireOutcome.blocked := by decide

/-- C8, amended: a missing `mysql.ini` makes `loadConfigFile`
report failure and the constructor return at once — no connection
is created and neither the producer nor the scanner thread is
started — but subsequent operations do not fail fast: a
`getConnection` call on such a pool blocks waiting on the empty
queue with the default-initialized timeout and returns the null
handle only after a wait expires. -/
theorem config_missing_aborts_init (s : PoolState) (now : Nat) (hq : s.queue = []) :
    loadConfigFile s none = (s, false) ∧
    constructPool s none now = (s, false) ∧
    (getConnectionS s []).1 = AcquireOutcome.blocked ∧
    ∀ ws, (getConnectionS s (WaitRes.timeout [] :: ws)).1 = AcquireOutcome.nullHandle := by
  refine ⟨rfl, rfl, ?_, ?_⟩
  · simp [getConnectionS, hq, getConnection]
  · intro ws
    simp [getConnectionS, hq, getConnection]

/-- C8, witness: the amended claim at the default-constructed
member state. -/
theorem config_missing_aborts_init_witness :
    loadConfigFile defaultPool none = (defaultPool, false) ∧
    constructPool defaultPool none 0 = (defaultPool, false) ∧
    (getConnectionS defaultPool []).1 = AcquireOutcome.blocked ∧
    ∀ ws, (getConnectionS defaultPool (WaitRes.timeout [] :: ws)).1
      = AcquireOutcome.nullHandle :=
  config_missing_aborts_init defaultPool 0 rfl

/-- C7: on a wakeup with the queue empty and the counter below the
ceiling, the producer builds exactly one new connection (`connect`
is called with result `ok`, the idle timestamp is stamped to `now`),
appends it to the queue, increments the counter by one and calls
`notify_all`; on a wakeup with the queue non-empty it waits and
produces nothing. -/
theorem produce_one_per_wakeup (s : PoolState) (ok : Bool) (now : Nat) :
    (s.queue = [] → s.connectionCnt < s.maxSize →
      produceStep s ok now
        = ({ s with queue := [newConn ok now],
                    connectionCnt := s.connectionCnt + 1 }, true)) ∧
    (s.queue ≠ [] → produceStep s ok now = (s, false)) := by
  constructor
  · intro h1 h2
    unfold produceStep
    rw [h1]
    dsimp only
    rw [if_pos h2]
    simp
  · intro h
    obtain ⟨c, rest, hq⟩ := List.exists_cons_of_ne_nil h
    unfold produceStep
    rw [hq]

/-- C7, witness: one producer wakeup on an empty queue with space
left creates one connection; a wakeup on the resulting non-empty
queue leaves the pool untouched. -/
theorem produce_one_per_wakeup_witness :
    produceStep { defaultPool with maxSize := 4 } true 3
      = ({ defaultPool with maxSize := 4, queue := [newConn true 3], connectionCnt := 1 }, true) ∧
    produceStep { defaultPool with maxSize := 4, queue := [newConn true 3], connectionCnt := 1 } true 9
      = ({ defaultPool with maxSize := 4, queue := [newConn true 3], connectionCnt := 1 }, false) :=
  ⟨(produce_one_per_wakeup { defaultPool with maxSize := 4 } true 3).1 rfl (by decide),
   (produce_one_per_wakeup
      { defaultPool with maxSize := 4, queue := [newConn true 3], connectionCnt := 1 }
      true 9).2 (by decide)⟩

/-- C9: `getConnection` (on any trace of wait outcomes, succeeding,
timing out or still blocked) and a release through the custom
deleter leave `_connectionCnt` and all nine configuration fields
unchanged; after construction the counter moves only through the
producer (which only ever adds one) and the scanner (which never
increases it). -/
theorem acquire_release_frame :
    (∀ (s : PoolState) (ws : List WaitRes),
        configOf (getConnectionS s ws).2 = configOf s ∧
        (getConnectionS s ws).2.connectionCnt = s.connectionCnt) ∧
    (∀ (s : PoolState) (c : Conn) (now : Nat),
        configOf (releaseConn s c now).1 = configOf s ∧
        (releaseConn s c now).1.connectionCnt = s.connectionCnt) ∧
    (∀ (s : PoolState) (ok : Bool) (now : Nat),
        configOf (produceStep s ok now).1 = configOf s ∧
        ((produceStep s ok now).1.connectionCnt = s.connectionCnt ∨
         (produceStep s ok now).1.connectionCnt = s.connectionCnt + 1)) ∧
    (∀ (s s' : PoolState) (now : Nat), scannerCycle s now = some s' →
        configOf s' = configOf s ∧ s'.connectionCnt ≤ s.connectionCnt) := by
  refine ⟨fun s ws => ⟨rfl, rfl⟩, fun s c now => ⟨rfl, rfl⟩, ?_, ?_⟩
  · intro s ok now
    unfold produceStep
    cases hq : s.queue with
    | cons c rest => exact ⟨rfl, Or.inl rfl⟩
    | nil =>
      dsimp only
      by_cases hcm : s.connectionCnt < s.maxSize
      · rw [if_pos hcm]
        exact ⟨rfl, Or.inr rfl⟩
      · rw [if_neg hcm]
        exact ⟨rfl, Or.inl rfl⟩
  · intro s s' now hsc
    unfold scannerCycle at hsc
    cases hr : scanLoop s.initSize s.maxIdleTime now s.queue s.connectionCnt with
    | none => rw [hr] at hsc; simp at hsc
    | some r =>
      rw [hr] at hsc
      simp only [Option.map_some'] at hsc
      injection hsc with hs'
      subst hs'
      exact ⟨rfl, (scanLoop_some_bounds _ _ _ _ _ r hr).1⟩

/-- C9, witness: one scanner cycle at time 10000 on a pool holding
one stale idle connection evicts it; the configuration is untouched
and the counter does not increase. -/
theorem acquire_release_frame_witness :
    configOf { defaultPool with initSize := 1, maxSize := 4, maxIdleTime := 2, queue := [], connectionCnt := 1 }
      = configOf { defaultPool with initSize := 1, maxSize := 4, maxIdleTime := 2, queue := [newConn true 0], connectionCnt := 2 } ∧
    ({ defaultPool with initSize := 1, maxSize := 4, maxIdleTime := 2, queue := [], connectionCnt := 1 } : PoolState).connectionCnt
      ≤ ({ defaultPool with initSize := 1, maxSize := 4, maxIdleTime := 2, queue := [newConn true 0], connectionCnt := 2 } : PoolState).connectionCnt :=
  acquire_release_frame.2.2.2
    { defaultPool with initSize := 1, maxSize := 4, maxIdleTime := 2, queue := [newConn true 0], connectionCnt := 2 }
    { defaultPool with initSize := 1, maxSize := 4, maxIdleTime := 2, queue := [], connectionCnt := 1 }
    10000 (by decide)

/-- C10: a configuration line of the shape `key=value\n` is cut at
the first `'='` and the terminating `'\n'`, so the stored value is
exactly the characters strictly between them (shown in general by
the `parseLine` conjunct and concretely for the `password` field);
a line without `'='` leaves every configuration field unchanged;
and `loadConfigFile` returns `true` whenever the file opened,
whatever its lines contain. -/
theorem loadConfig_parses_lines :
    (∀ (k v : List Char), '=' ∉ k → '\n' ∉ v →
        parseLine (k ++ '=' :: (v ++ ['\n'])) = some (k, v)) ∧
    (∀ (s : PoolState) (v : List Char), '\n' ∉ v →
        applyConfigLine s ("password".toList ++ '=' :: (v ++ ['\n']))
          = { s with password := v }) ∧
    (∀ (s : PoolState) (line : List Char), '=' ∉ line → applyConfigLine s line = s) ∧
    (∀ (s : PoolState) (ls : List (List Char)), (loadConfigFile s (some ls)).2 = true) := by
  refine ⟨fun k v hk hv => parseLine_eq hk hv, ?_, ?_, fun s ls => rfl⟩
  · intro s v hv
    have hp := parseLine_eq (k := "password".toList) (by decide) hv
    unfold applyConfigLine
    rw [hp]
    dsimp only
    unfold applyKV
    rw [if_neg (by decide), if_neg (by decide), if_neg (by decide), if_pos rfl]
  · intro s line hl
    have hp : parseLine line = none := by
      unfold parseLine
      rw [strFind_zero, findChar_eq_none hl]
    unfold applyConfigLine
    rw [hp]

/-- C10, witness: the line `port=3306\n` parses into key `port` and
value `3306` with the newline stripped. -/
theorem loadConfig_parses_lines_witness :
    parseLine (("port".toList) ++ '=' :: (("3306".toList) ++ ['\n']))
      = some ("port".toList, "3306".toList) :=
  loadConfig_parses_lines.1 ("port".toList) ("3306".toList) (by decide) (by decide)

/-- C5: the eviction loop of `scannerConnectionTask` guards only on
`_connectionCnt > _initSize` and never tests `_connectionQue` for
emptiness before taking `front()`.  At a reachable cycle where the
pool has grown to the ceiling and every connection is checked out
(floor 1, ceiling 5, counter 5, empty queue), the loop condition
`5 > 1` holds and the cycle takes `front()` of the empty queue —
undefined behaviour, rendered `none` in the embedding — instead of
performing the claimed prefix scan that stops at the first
insufficiently idle head. -/
theorem scanner_front_on_empty_queue :
    scannerCycle { defaultPool with initSize := 1, maxSize := 5, maxIdleTime := 2, connectionCnt := 5 } 10000
      = none := by decide

/-- C1: from a member state with an empty queue, a zero counter and
configured bounds `0 ≤ initSize ≤ maxSize`, the constructor's
warm-up loop creates exactly `initSize` connections (counter and
queue length both equal `initSize`), and every state reachable from
there by any interleaving of producer iterations, consumer pops,
releases and scanner cycles keeps
`initSize ≤ _connectionCnt ≤ maxSize`. -/
theorem pool_counter_bounded (s : PoolState) (now : Nat)
    (hq : s.queue = []) (hc : s.connectionCnt = 0)
    (h0 : 0 ≤ s.initSize) (him : s.initSize ≤ s.maxSize) :
    (warmup now s.initSize.toNat s).connectionCnt = s.initSize ∧
    (warmup now s.initSize.toNat s).queue.length = s.initSize.toNat ∧
    ∀ t, Reachable (warmup now s.initSize.toNat s) t →
      t.initSize ≤ t.connectionCnt ∧ t.connectionCnt ≤ t.maxSize := by
  have hcnt : (warmup now s.initSize.toNat s).connectionCnt = s.initSize := by
    rw [warmup_cnt, hc]
    simp [Int.toNat_of_nonneg h0]
  refine ⟨hcnt, ?_, ?_⟩
  · rw [warmup_queue, hq]
    simp
  · intro t hr
    induction hr with
    | refl =>
      refine ⟨?_, ?_⟩
      · rw [warmup_initSize, hcnt]
      · rw [hcnt, warmup_maxSize]
        exact him
    | tail hr' hst ih => exact step_bounds hst ih

/-- C1, witness: with floor 2 and ceiling 3, warm-up yields counter
2 and two queued connections, and every reachable state keeps the
counter in `[2, 3]`. -/
theorem pool_counter_bounded_witness :
    (warmup 0 poolA.initSize.toNat poolA).connectionCnt = poolA.initSize ∧
    (warmup 0 poolA.initSize.toNat poolA).queue.length = poolA.initSize.toNat ∧
    ∀ t, Reachable (warmup 0 poolA.initSize.toNat poolA) t →
      t.initSize ≤ t.connectionCnt ∧ t.connectionCnt ≤ t.maxSize :=
  pool_counter_bounded poolA 0 rfl rfl (by decide) (by decide)

end ConnPool
